import Mathlib

/- Verification of the CASA Data Portal backend event-to-file mapping and
reference-aggregation pipeline.  The definitions below are a shallow
embedding of the Python sources: pure helpers become Lean functions,
database tables become lists of row structures, sessions/transactions
become explicit state passing, and Python exceptions become an explicit
error type threaded through `Except` or an `Option PyError` result.
String work is done on `List Char` so every definition is structurally
recursive and evaluates inside the kernel.  Datetimes are embedded
structurally (`PDateTime`) where filename parsing is concerned, and as an
abstract linearly ordered integer timestamp (`Int`, seconds) where only
comparisons matter; `timedelta(minutes=15)` is 900 seconds. -/

set_option linter.unusedVariables false

/-- Python exception kinds that can arise in the embedded code paths. -/
inductive PyError where
  | valueError
  | indexError
  | keyError
  | attributeError
  | validationError
  | noResultFound
  | dbError
  | injected
deriving DecidableEq, Repr

/-- Event status enum from src/database/models/enums.py. -/
inductive EventStatus where
  | unmapped
  | mapped
  | modified
deriving DecidableEq, Repr, BEq

def jsonExt : List Char := ['.', 'j', 's', 'o', 'n']

def gzExt : List Char := ['.', 'g', 'z']

def ncExt : List Char := ['.', 'n', 'c']

def ncgzExt : List Char := ['.', 'n', 'c', '.', 'g', 'z']

def compositeLit : List Char := ['C', 'O', 'M', 'P', 'O', 'S', 'I', 'T', 'E', '_']

def txLit : List Char := ['t', 'x', '-']

def hailS : String := "hail"

def rainfallS : String := "rainfall"

def singleradarS : String := "singleradar"

def slashC : Char := '/'

def dotC : Char := '.'

def dashC : Char := '-'

def underC : Char := '_'

/-- Does the second list start with the first. -/
def listStarts : List Char → List Char → Bool
  | [], _ => true
  | _ :: _, [] => false
  | a :: pa, b :: sb => a == b && listStarts pa sb

/-- Substring containment, Python `pat in s`. -/
def listHasSub (pat : List Char) : List Char → Bool
  | [] => pat.isEmpty
  | b :: sb => listStarts pat (b :: sb) || listHasSub pat sb

/-- Does the list end with the given suffix. -/
def listEnds (suf s : List Char) : Bool := listStarts suf.reverse s.reverse

/-- Python str.split(sep) for a one-character separator: always returns at
least one (possibly empty) piece. -/
def splitOnChar (c : Char) : List Char → List (List Char)
  | [] => [[]]
  | x :: xs =>
    match splitOnChar c xs with
    | [] => [[]]
    | g :: gs => if x == c then [] :: g :: gs else (x :: g) :: gs

/-- Python os.path.basename for plain paths: text after the last slash. -/
def baseNameL (cs : List Char) : List Char := (splitOnChar slashC cs).getLastD cs

/-- Python str.removesuffix. -/
def removeSuffixL (suf s : List Char) : List Char :=
  if listEnds suf s then s.take (s.length - suf.length) else s

/-- Strips an exact literal from the front, failing if absent. -/
def dropLit : List Char → List Char → Option (List Char)
  | [], s => some s
  | _ :: _, [] => none
  | a :: pa, b :: sb => if a == b then dropLit pa sb else none

/-- Fuel-driven worker for `replaceSub`; the fuel starts at the length of
the subject string, which bounds the number of rewriting steps. -/
def replaceSubAux (pat rep : List Char) : Nat → List Char → List Char
  | _, [] => []
  | 0, s => s
  | fuel + 1, x :: xs =>
    match dropLit pat (x :: xs) with
    | some rest => rep ++ replaceSubAux pat rep fuel rest
    | none => x :: replaceSubAux pat rep fuel xs

/-- Python str.replace: every non-overlapping occurrence, left to right. -/
def replaceSub (pat rep s : List Char) : List Char := replaceSubAux pat rep s.length s

/-- Structured datetime value produced by the embedded strptime. -/
structure PDateTime where
  year : Nat
  month : Nat
  day : Nat
  hour : Nat
  minute : Nat
  second : Nat
deriving DecidableEq, Repr

/-- Gregorian leap year test, as in Python datetime. -/
def leapYear (y : Nat) : Bool := (y % 4 == 0 && y % 100 != 0) || y % 400 == 0

/-- Days in a month, as validated by the Python datetime constructor. -/
def daysInMonth (y m : Nat) : Nat :=
  if m == 2 then (if leapYear y then 29 else 28)
  else if m == 4 || m == 6 || m == 9 || m == 11 then 30 else 31

/-- Range validation done by the Python datetime constructor; out-of-range
fields make strptime raise ValueError, embedded here as `none`. -/
def mkDateTime (y mo d h mi s : Nat) : Option PDateTime :=
  if 1 ≤ y ∧ y ≤ 9999 ∧ 1 ≤ mo ∧ mo ≤ 12 ∧ 1 ≤ d ∧ d ≤ daysInMonth y mo
      ∧ h ≤ 23 ∧ mi ≤ 59 ∧ s ≤ 59
  then some ⟨y, mo, d, h, mi, s⟩ else none

def digVal (c : Char) : Nat := c.toNat - 48

/-- Embedded strptime for the shape YYYYmmdd<sep>HHMMSS followed by an
exact literal suffix (fixed-width fields; strptime requires the whole
string to match, trailing text beyond the suffix is a ValueError). -/
def parseYmdHmsSuffix (sep : Char) (suffix : List Char) (cs : List Char) : Option PDateTime :=
  match cs with
  | y1 :: y2 :: y3 :: y4 :: m1 :: m2 :: d1 :: d2 :: c :: h1 :: h2 :: n1 :: n2 :: s1 :: s2 :: rest =>
    if ([y1, y2, y3, y4, m1, m2, d1, d2, h1, h2, n1, n2, s1, s2].all Char.isDigit)
        && c == sep && rest == suffix then
      mkDateTime
        (digVal y1 * 1000 + digVal y2 * 100 + digVal y3 * 10 + digVal y4)
        (digVal m1 * 10 + digVal m2)
        (digVal d1 * 10 + digVal d2)
        (digVal h1 * 10 + digVal h2)
        (digVal n1 * 10 + digVal n2)
        (digVal s1 * 10 + digVal s2)
    else none
  | _ => none

/-- Embedded strptime for the shape YYYYmmddHHMMSS with no separator. -/
def parseYmdHmsNoSep (cs : List Char) : Option PDateTime :=
  match cs with
  | [y1, y2, y3, y4, m1, m2, d1, d2, h1, h2, n1, n2, s1, s2] =>
    if [y1, y2, y3, y4, m1, m2, d1, d2, h1, h2, n1, n2, s1, s2].all Char.isDigit then
      mkDateTime
        (digVal y1 * 1000 + digVal y2 * 100 + digVal y3 * 10 + digVal y4)
        (digVal m1 * 10 + digVal m2)
        (digVal d1 * 10 + digVal d2)
        (digVal h1 * 10 + digVal h2)
        (digVal n1 * 10 + digVal n2)
        (digVal s1 * 10 + digVal s2)
    else none
  | _ => none

/-- strptime with format lit ++ YYYYmmdd<sep>HHMMSS ++ suffix; `none` is
the caught ValueError. -/
def strptimeLitYmdHms (lit : List Char) (sep : Char) (suffix : List Char) (s : List Char) : Option PDateTime :=
  match dropLit lit s with
  | some rest => parseYmdHmsSuffix sep suffix rest
  | none => none

/-- Embedding of parse_file_datetime_infer_simple (src/shared/tools.py
lines 45 to 75): basename, drop a .json suffix, then first match among
the hail (COMPOSITE_), single-radar (tx-) and rainfall patterns.  Only
ValueError is caught (giving `Except.ok none`); the tx- branch indexes
`split(".")[1]`, whose IndexError escapes the handler. -/
def parse_file_datetime_infer_simple (filename : String) : Except PyError (Option PDateTime) :=
  let base0 := baseNameL filename.data
  let base := removeSuffixL jsonExt base0
  if listHasSub compositeLit base then
    Except.ok (strptimeLitYmdHms compositeLit dashC [] base)
  else if listHasSub txLit base then
    match (splitOnChar dotC base)[1]? with
    | none => Except.error PyError.indexError
    | some part => Except.ok (strptimeLitYmdHms txLit dashC [] part)
  else
    Except.ok (parseYmdHmsSuffix underC [] base)

/-- Default (product-less) branch of parse_file_datetime: basename, strip
all .nc.gz / .nc occurrences, split on the underscore into exactly two
pieces (a failed two-name unpacking is a ValueError, caught), and parse
the concatenation as YYYYmmddHHMMSS. -/
def parse_file_datetime_default (filename : String) : Except PyError (Option PDateTime) :=
  let base0 := baseNameL filename.data
  let base := replaceSub ncExt [] (replaceSub ncgzExt [] base0)
  match splitOnChar underC base with
  | [d, t] => Except.ok (parseYmdHmsNoSep (d ++ t))
  | _ => Except.ok none

/-- Embedding of parse_file_datetime (src/shared/tools.py lines 9 to 42):
product-directed strptime formats.  Only ValueError is caught; the
singleradar branch indexes `split(".")[1]` and its IndexError escapes. -/
def parse_file_datetime (filename : String) (product : Option String) : Except PyError (Option PDateTime) :=
  match product with
  | some p =>
    if p == hailS then
      Except.ok (strptimeLitYmdHms compositeLit dashC ncExt filename.data)
    else if p == rainfallS then
      Except.ok (parseYmdHmsSuffix underC
        (if listEnds gzExt filename.data then ncgzExt else ncExt) filename.data)
    else if p == singleradarS then
      match (splitOnChar dotC filename.data)[1]? with
      | none => Except.error PyError.indexError
      | some part => Except.ok (strptimeLitYmdHms txLit dashC [] part)
    else parse_file_datetime_default filename
  | none => parse_file_datetime_default filename

/-- Embedding of fn_to_datetime (src/kerchunker/src/kerchunk_event_refs.py
lines 23 to 35): raises ValueError on an empty filename, propagates any
error from the filename parser, and raises ValueError when the parser
returns the unparseable marker. -/
def fn_to_datetime (fn : String) : Except PyError PDateTime :=
  if fn.data.isEmpty then Except.error PyError.valueError
  else
    match parse_file_datetime_infer_simple fn with
    | Except.error e => Except.error e
    | Except.ok none => Except.error PyError.valueError
    | Except.ok (some dt) => Except.ok dt


def reflectivityS : String := "reflectivity"

/-- Static event-category to storage-product table from
src/shared/noaa_product_to_product.py; a missing key is a Python
KeyError at the subscription site, so the lookup is an Option here. -/
def event_to_product_map (category : String) : Option (List String) :=
  if category == "Heavy Snow" then some [reflectivityS, singleradarS]
  else if category == "Strong Wind" then some [reflectivityS, singleradarS]
  else if category == "High Wind" then some [reflectivityS, singleradarS]
  else if category == "Heavy Rain" then some [rainfallS, reflectivityS, singleradarS]
  else if category == "Flash Flood" then some [rainfallS, reflectivityS, singleradarS]
  else if category == "Ice Storm" then some [reflectivityS, singleradarS]
  else if category == "Flood" then some [rainfallS, reflectivityS, singleradarS]
  else if category == "Thunderstorm Wind" then some [reflectivityS, singleradarS]
  else if category == "Blizzard" then some [reflectivityS, singleradarS]
  else if category == "Hail" then some [hailS, reflectivityS, singleradarS]
  else if category == "Tornado" then some [reflectivityS, singleradarS]
  else none

/-- Row of the nc_files table (src/database/models/files.py, NcFile); the
timestamp is embedded as an abstract Int (seconds). -/
structure NcFileRow where
  id : Nat
  s3_path : String
  date_time : Int
  product : String
  event_id : Option Nat
  ref_file_id : Option Nat
  event_ref_file_id : Option Nat
deriving DecidableEq, Repr

/-- Row of the individual_reference_files table (IndividualRefFile). -/
structure IndRefRow where
  id : Nat
  s3_path : String
  date_time : Int
  product : String
  event_id : Option Nat
  nc_file_id : Option Nat
  event_ref_file_id : Option Nat
deriving DecidableEq, Repr

/-- Row of the event_reference_files table (EventRefFile). -/
structure EventRefRow where
  id : Nat
  s3_path : String
  product : String
  event_id : Nat
deriving DecidableEq, Repr

/-- Row of the noaa_events table (NoaaEvent), restricted to the columns the
mapping and combining paths read. -/
structure EventRow where
  id : Nat
  event_id : Nat
  noaa_product : String
  date_time_start : Int
  date_time_end : Int
  status : EventStatus
deriving DecidableEq, Repr

/-- The relational store: the tables the pipeline touches plus a fresh-id
counter standing for the id sequences. -/
structure Db where
  events : List EventRow
  nc_files : List NcFileRow
  individual_reference_files : List IndRefRow
  event_reference_files : List EventRefRow
  next_id : Nat
deriving DecidableEq, Repr

/-- timedelta(minutes=15) in seconds. -/
def fifteen_minutes : Int := 900

/-- Embedding of get_matching_nc_files (src/mapper/src/db_tools.py lines
109 to 123): rows of nc_files with the given product whose timestamp lies
in the inclusive interval. -/
def get_matching_nc_files (db : Db) (product : String) (date_time_start date_time_end : Int) : List NcFileRow :=
  db.nc_files.filter fun f =>
    f.product == product && decide (date_time_start ≤ f.date_time)
      && decide (f.date_time ≤ date_time_end)

/-- Per-event file selection performed by map_events (src/mapper/mapper.py
lines 61 to 67): subscription of the category table raises KeyError on a
missing category, `[0]` raises IndexError on an empty product list, and
otherwise only the FIRST mapped product is queried, over the window padded
by 15 minutes on both sides. -/
def map_events_selection (db : Db) (ev : EventRow) : Except PyError (List NcFileRow) :=
  match event_to_product_map ev.noaa_product with
  | none => Except.error PyError.keyError
  | some [] => Except.error PyError.indexError
  | some (p :: _) =>
    Except.ok (get_matching_nc_files db p
      (ev.date_time_start - fifteen_minutes) (ev.date_time_end + fifteen_minutes))

/-- The selection the spec claims (section 4.1 and claim C1): files whose
product is AMONG the mapped products for the category, same padded
window.  Written from the words of the spec, for comparison with
`map_events_selection`. -/
def claimed_find_overlapping (db : Db) (ev : EventRow) : Except PyError (List NcFileRow) :=
  match event_to_product_map ev.noaa_product with
  | none => Except.error PyError.keyError
  | some ps =>
    Except.ok (db.nc_files.filter fun f =>
      ps.contains f.product
        && decide (ev.date_time_start - fifteen_minutes ≤ f.date_time)
        && decide (f.date_time ≤ ev.date_time_end + fifteen_minutes))

/-- get_current_event (src/mapper/src/db_tools.py lines 126 to 140):
scalar_one raises when no row matches. -/
def get_current_event (db : Db) (id_event : Nat) : Except PyError EventRow :=
  match db.events.find? (fun e => e.id == id_event) with
  | some e => Except.ok e
  | none => Except.error PyError.noResultFound

/-- Assign an event id to the nc_files row with the given row id. -/
def set_nc_event (db : Db) (ncId evId : Nat) : Db :=
  { db with nc_files :=
      db.nc_files.map fun f => if f.id == ncId then { f with event_id := some evId } else f }

/-- Assign an event id to the individual_reference_files row with the
given row id. -/
def set_ref_event (db : Db) (refId evId : Nat) : Db :=
  { db with individual_reference_files :=
      db.individual_reference_files.map fun r =>
        if r.id == refId then { r with event_id := some evId } else r }

/-- Set the status of the noaa_events row with the given row id. -/
def set_event_status (db : Db) (evId : Nat) (st : EventStatus) : Db :=
  { db with events :=
      db.events.map fun e => if e.id == evId then { e with status := st } else e }

/-- Body of the per-file loop inside the mapping transaction
(src/mapper/mapper.py lines 83 to 92), on the pending (uncommitted)
state: set the nc file event id, then dereference nc_file.ref_file — an
AttributeError when the file has no linked individual index — and set its
event id.  `failBefore` injects an arbitrary exception before processing
the next file (or, once the list is exhausted, at commit); it decrements
at each file. -/
def map_transaction_loop (evId : Nat) (pending : Db) (files : List NcFileRow) (failBefore : Option Nat) : Except PyError Db :=
  if failBefore == some 0 then Except.error PyError.injected
  else
    match files with
    | [] => Except.ok pending
    | f :: rest =>
      let pending := set_nc_event pending f.id evId
      match f.ref_file_id with
      | none => Except.error PyError.attributeError
      | some rid =>
        let pending := set_ref_event pending rid evId
        map_transaction_loop evId pending rest (failBefore.map (fun n => n - 1))

/-- Embedding of one iteration of map_events (src/mapper/mapper.py lines
59 to 105) for a single event: select matching files (section read in its
own session over the committed state), skip with a warning when none
match, then run one transaction that re-fetches the event, links every
matching file and its individual index, flips the status to MAPPED and
commits.  Any exception inside the transaction rolls the session back —
the committed state stays exactly the input `db` — and is re-raised,
surfacing as `some` error next to the unchanged state. -/
def map_one_event (db : Db) (ev : EventRow) (failBefore : Option Nat) : Db × Option PyError :=
  match map_events_selection db ev with
  | Except.error e => (db, some e)
  | Except.ok matching =>
    if matching.isEmpty then (db, none)
    else
      match get_current_event db ev.id with
      | Except.error e => (db, some e)
      | Except.ok _ =>
        match map_transaction_loop ev.id db matching failBefore with
        | Except.error e => (db, some e)
        | Except.ok pending => (set_event_status pending ev.id EventStatus.mapped, none)

/-- Generic ON CONFLICT (s3_path) DO UPDATE upsert over a table embedded
as a row list: the first row with the key of `new` is updated in place
(the unique constraint makes it the only one), otherwise `new` is
appended; the persisted row is returned, as the RETURNING clause does. -/
def upsert_row {α : Type} (keyOf : α → String) (upd : α → α) (new : α) : List α → List α × α
  | [] => ([new], new)
  | x :: xs =>
    if keyOf x == keyOf new then (upd x :: xs, upd x)
    else
      let p := upsert_row keyOf upd new xs
      (x :: p.1, p.2)

/-- NcFileDTO (src/kerchunker/src/db_tools.py lines 65 to 71); event_id
and reference_file_id default to None. -/
structure NcFileDTO where
  s3_path : String
  date_time : Int
  product : String
  event_id : Option Nat := none
  reference_file_id : Option Nat := none
deriving DecidableEq, Repr

/-- IndividualRefFileDTO (src/kerchunker/src/db_tools.py lines 139 to
145). -/
structure IndividualRefFileDTO where
  s3_path : String
  date_time : Int
  product : String
  event_id : Option Nat := none
  nc_file_id : Option Nat := none
deriving DecidableEq, Repr

/-- EventRefFileDTO (src/database/schemas/files.py). -/
structure EventRefFileDTO where
  s3_path : String
  product : String
  event_id : Nat
deriving DecidableEq, Repr

/-- The DO UPDATE SET clause of the nc_files upsert: every payload column
(date_time, product, event_id, reference_file_id) is overwritten from the
excluded row; id and event_ref_file_id are untouched. -/
def nc_row_update (dto : NcFileDTO) (r : NcFileRow) : NcFileRow :=
  { r with
    date_time := dto.date_time
    product := dto.product
    event_id := dto.event_id
    ref_file_id := dto.reference_file_id }

/-- The inserted nc_files row when no conflict occurs. -/
def nc_row_insert (nid : Nat) (dto : NcFileDTO) : NcFileRow :=
  ⟨nid, dto.s3_path, dto.date_time, dto.product, dto.event_id, dto.reference_file_id, none⟩

/-- Embedding of _upsert_nc_file_in_session (src/kerchunker/src/db_tools.py
lines 227 to 257): INSERT ... ON CONFLICT (s3_path) DO UPDATE ...
RETURNING *, inside the callers session. -/
def _upsert_nc_file_in_session (db : Db) (dto : NcFileDTO) : Db × NcFileRow :=
  let p := upsert_row (fun r => r.s3_path) (nc_row_update dto) (nc_row_insert db.next_id dto) db.nc_files
  ({ db with nc_files := p.1, next_id := db.next_id + 1 }, p.2)

/-- The DO UPDATE SET clause of the individual_reference_files upsert. -/
def ind_row_update (dto : IndividualRefFileDTO) (r : IndRefRow) : IndRefRow :=
  { r with
    date_time := dto.date_time
    product := dto.product
    event_id := dto.event_id
    nc_file_id := dto.nc_file_id }

/-- The inserted individual_reference_files row when no conflict occurs. -/
def ind_row_insert (nid : Nat) (dto : IndividualRefFileDTO) : IndRefRow :=
  ⟨nid, dto.s3_path, dto.date_time, dto.product, dto.event_id, dto.nc_file_id, none⟩

/-- Embedding of _upsert_individual_ref_file_in_session
(src/kerchunker/src/db_tools.py lines 190 to 224). -/
def _upsert_individual_ref_file_in_session (db : Db) (dto : IndividualRefFileDTO) : Db × IndRefRow :=
  let p := upsert_row (fun r => r.s3_path) (ind_row_update dto) (ind_row_insert db.next_id dto)
    db.individual_reference_files
  ({ db with individual_reference_files := p.1, next_id := db.next_id + 1 }, p.2)

/-- The DO UPDATE SET clause of the event_reference_files upsert. -/
def event_ref_row_update (dto : EventRefFileDTO) (r : EventRefRow) : EventRefRow :=
  { r with product := dto.product, event_id := dto.event_id }

/-- The inserted event_reference_files row when no conflict occurs. -/
def event_ref_row_insert (nid : Nat) (dto : EventRefFileDTO) : EventRefRow :=
  ⟨nid, dto.s3_path, dto.product, dto.event_id⟩

/-- Modelled from the spec: `upsert_event_ref_file` is imported by
src/kerchunker/src/kerchunk_event_refs.py from src.db_tools but is absent
from the sources.  Section 4.2 fixes its contract: the same
insert-or-update-on-conflict semantics keyed on the unique storage path,
returning the persisted row. -/
def upsert_event_ref_file (db : Db) (dto : EventRefFileDTO) : Db × EventRefRow :=
  let p := upsert_row (fun r => r.s3_path) (event_ref_row_update dto) (event_ref_row_insert db.next_id dto)
    db.event_reference_files
  ({ db with event_reference_files := p.1, next_id := db.next_id + 1 }, p.2)

/-- Python nc_path.split("/")[0], the product prefix of a storage key. -/
def nc_product (nc_path : String) : String :=
  String.mk ((splitOnChar slashC nc_path.data).headD [])

/-- Injective encoding of a parsed datetime into the abstract Int
timestamp column (fields are range-bounded, so mixed radix is faithful to
the linear order on datetimes). -/
def dtCode (d : PDateTime) : Int :=
  Int.ofNat (((((d.year * 13 + d.month) * 32 + d.day) * 24 + d.hour) * 60 + d.minute) * 60 + d.second)

/-- Embedding of one iteration of the item loop in batch_upsert_refs
(src/kerchunker/src/kerchunk_tools.py lines 94 to 133): derive the
product from the key prefix, parse the timestamp from the basename (a
None timestamp fails pydantic validation of NcFileDTO), then the
three-phase linking — upsert the nc file without a reference link, upsert
the reference file carrying the nc file id, re-upsert the nc file with
the reference id.  A zero (falsy) returned id makes the loop `continue`
without error.  `failAt` injects a database exception at phase 1, 2 or 3;
any raised error is returned next to the session state reached so far
(the per-item except clause catches it; earlier phases of the same item
stay in the session). -/
def process_one_ref_item (db : Db) (ref_path nc_path : String) (failAt : Option Nat) : Db × Option PyError :=
  let product := nc_product nc_path
  match parse_file_datetime (String.mk (baseNameL nc_path.data)) (some product) with
  | Except.error e => (db, some e)
  | Except.ok none => (db, some PyError.validationError)
  | Except.ok (some dt) =>
    if failAt == some 1 then (db, some PyError.dbError)
    else
      let r1 := _upsert_nc_file_in_session db ⟨nc_path, dtCode dt, product, none, none⟩
      if r1.2.id == 0 then (r1.1, none)
      else if failAt == some 2 then (r1.1, some PyError.dbError)
      else
        let r2 := _upsert_individual_ref_file_in_session r1.1
          ⟨ref_path, dtCode dt, product, none, some r1.2.id⟩
        if r2.2.id == 0 then (r2.1, none)
        else if failAt == some 3 then (r2.1, some PyError.dbError)
        else
          let r3 := _upsert_nc_file_in_session r2.1 ⟨nc_path, dtCode dt, product, none, some r2.2.id⟩
          (r3.1, none)

/-- Embedding of batch_upsert_refs (src/kerchunker/src/kerchunk_tools.py
lines 79 to 139): items are (ref_path, nc_path) with an optional injected
failure phase; an exception from one item is caught, logged with the
nc path, and the loop continues with the next item.  The session-per-chunk
batching does not change the data flow (nothing is rolled back), so the
list is processed as one run. -/
def batch_upsert_refs (db : Db) (log : List (String × PyError)) : List (String × String × Option Nat) → Db × List (String × PyError)
  | [] => (db, log)
  | (ref_path, nc_path, failAt) :: rest =>
    let r := process_one_ref_item db ref_path nc_path failAt
    match r.2 with
    | some e => batch_upsert_refs r.1 (log ++ [(nc_path, e)]) rest
    | none => batch_upsert_refs r.1 log rest

/-- Modelled from the spec: `get_individual_ref_files` is imported by
src/kerchunker/src/kerchunk_event_refs.py from src.db_tools but is absent
from the sources.  Section 4.4 fixes its contract: fetch all
IndividualIndex rows linked to the event. -/
def get_individual_ref_files (db : Db) (event_id : Nat) : List IndRefRow :=
  db.individual_reference_files.filter fun r => r.event_id == some event_id

/-- Modelled from the spec: `get_events_for_event_ref_files` is imported
by src/kerchunker/main.py from src.db_tools but is absent from the
sources.  Section 4.4 fixes its contract: events with status MAPPED that
do not yet have a CombinedIndex (anti-join on event_reference_files),
from the given start date on. -/
def get_events_for_event_ref_files (db : Db) (start_date : Int) : List EventRow :=
  db.events.filter fun e =>
    decide (e.status = EventStatus.mapped) && decide (start_date ≤ e.date_time_start)
      && !(db.event_reference_files.any fun c => c.event_id == e.id)

/-- Record of one phase-1 combine invocation for an event. -/
structure CombineCall where
  input_paths : List String
  attempted_merge : Bool
  output_path : String
  output_event : Nat
deriving DecidableEq, Repr

/-- Storage key of a combined index, event_ref_files/noaa/<event_id>.json
(src/kerchunker/src/kerchunk_event_refs.py lines 71 to 72). -/
def event_ref_path (event_id : Nat) : String :=
  "event_ref_files/noaa/" ++ toString event_id ++ String.mk jsonExt

/-- Embedding of bounded_generate_combined_ref_file inside
process_event_ref_files (src/kerchunker/src/kerchunk_event_refs.py lines
131 to 144): fetch the individual reference files linked to the event,
log their count, and unconditionally hand their paths to
_sync_generate_combined_json_reference — there is no branch that skips
the merge when the list is empty, so attempted_merge is constantly
true. -/
def bounded_generate_combined_ref_file (db : Db) (ev : EventRow) : CombineCall :=
  let refs := get_individual_ref_files db ev.id
  { input_paths := refs.map fun r => r.s3_path,
    attempted_merge := true,
    output_path := event_ref_path ev.id,
    output_event := ev.id }

/-- The per-file datetime coordinate derivation that MultiZarrToZarr runs
over the input files of a merge (coo_map, src/kerchunker/src/
kerchunk_event_refs.py lines 59 to 67): fn_to_datetime is applied to each
file path and any exception propagates out of the merge. -/
def derive_coords : List String → Except PyError (List PDateTime)
  | [] => Except.ok []
  | fn :: rest =>
    match fn_to_datetime fn with
    | Except.error e => Except.error e
    | Except.ok dt =>
      match derive_coords rest with
      | Except.error e => Except.error e
      | Except.ok ds => Except.ok (dt :: ds)

/-- Concurrency bound used by both process_reference_files
(src/kerchunker/src/kerchunk_tools.py line 147) and
process_event_ref_files (src/kerchunker/src/kerchunk_event_refs.py line
127): `asyncio.Semaphore(os.cpu_count() or 4)`.  Python `or` yields the
right operand only when the left one is falsy (None, or the count 0). -/
def semaphore_size (cpu_count : Option Nat) : Nat :=
  match cpu_count with
  | some n => if n == 0 then 4 else n
  | none => 4

/-- Uniqueness invariant of a table keyed by a unique string column. -/
def KeysUnique {α : Type} (keyOf : α → String) (tbl : List α) : Prop :=
  tbl.Pairwise fun a b => keyOf a ≠ keyOf b

/-- Positivity of the id sequence and of all stored row ids (Postgres
sequences start at 1, so an id is never the falsy 0). -/
def IdsPositive (db : Db) : Prop :=
  0 < db.next_id ∧ (∀ r ∈ db.nc_files, 0 < r.id)
    ∧ (∀ r ∈ db.individual_reference_files, 0 < r.id)

/-- Concrete store for the C1 counterexample: one reflectivity file inside
the padded window of a Flood event. -/
def c1_file : NcFileRow := ⟨1, "reflectivity/20190301/f.nc", 1000, reflectivityS, none, none, none⟩

def c1_event : EventRow := ⟨1, 100, "Flood", 500, 1500, EventStatus.unmapped⟩

def c1_db : Db := ⟨[c1_event], [c1_file], [], [], 2⟩

/-- Concrete store for the C2 witness: a Flood event with five rainfall
files in its padded window, each linked to an individual index. -/
def c2_event : EventRow := ⟨1, 200, "Flood", 1000, 2000, EventStatus.unmapped⟩

def c2_files : List NcFileRow :=
  [⟨1, "rainfall/a.nc", 1000, rainfallS, none, some 11, none⟩,
   ⟨2, "rainfall/b.nc", 1100, rainfallS, none, some 12, none⟩,
   ⟨3, "rainfall/c.nc", 1200, rainfallS, none, some 13, none⟩,
   ⟨4, "rainfall/d.nc", 1300, rainfallS, none, some 14, none⟩,
   ⟨5, "rainfall/e.nc", 1400, rainfallS, none, some 15, none⟩]

def c2_refs : List IndRefRow :=
  [⟨11, "ref_files/rainfall/a.json", 1000, rainfallS, none, some 1, none⟩,
   ⟨12, "ref_files/rainfall/b.json", 1100, rainfallS, none, some 2, none⟩,
   ⟨13, "ref_files/rainfall/c.json", 1200, rainfallS, none, some 3, none⟩,
   ⟨14, "ref_files/rainfall/d.json", 1300, rainfallS, none, some 4, none⟩,
   ⟨15, "ref_files/rainfall/e.json", 1400, rainfallS, none, some 5, none⟩]

def c2_db : Db := ⟨[c2_event], c2_files, c2_refs, [], 100⟩

/-- Concrete store for the C9 witness: a Flood event whose second matching
file has no linked individual index. -/
def c9_event : EventRow := ⟨1, 300, "Flood", 1000, 2000, EventStatus.unmapped⟩

def c9_file_a : NcFileRow := ⟨1, "rainfall/a.nc", 1000, rainfallS, none, some 11, none⟩

def c9_file_b : NcFileRow := ⟨2, "rainfall/b.nc", 1100, rainfallS, none, none, none⟩

def c9_db : Db :=
  ⟨[c9_event], [c9_file_a, c9_file_b],
   [⟨11, "ref_files/rainfall/a.json", 1000, rainfallS, none, some 1, none⟩], [], 100⟩

/-- Concrete store for C4: a MAPPED event with zero linked individual
indexes and no combined index. -/
def c4_event : EventRow := ⟨7, 700, "Flood", 0, 100, EventStatus.mapped⟩

def c4_db : Db := ⟨[c4_event], [], [], [], 8⟩

/-- Empty store for the C3 witness. -/
def c3_db : Db := ⟨[], [], [], [], 1⟩

/-- Concrete store for the C10 witness: the nc file and its individual
index are both already linked to event 7 from an earlier mapping run. -/
def c10_nc : NcFileRow :=
  ⟨3, "rainfall/20240101/20240101_000000.nc", 999, rainfallS, some 7, some 4, none⟩

def c10_ref : IndRefRow :=
  ⟨4, "ref_files/rainfall/20240101/20240101_000000.json", 999, rainfallS, some 7, some 3, none⟩

def c10_db : Db := ⟨[], [c10_nc], [c10_ref], [], 5⟩

theorem upsert_row_snd_prop {α : Type} (keyOf : α → String) (upd : α → α) (new : α)
    (Q : α → Prop) (tbl : List α) (hupd : ∀ r ∈ tbl, Q (upd r)) (hnew : Q new) :
    Q (upsert_row keyOf upd new tbl).2 := by
  induction tbl with
  | nil => simpa [upsert_row] using hnew
  | cons x xs ih =>
    simp only [upsert_row]
    split
    · exact hupd x (List.mem_cons_self x xs)
    · exact ih fun r hr => hupd r (List.mem_cons_of_mem x hr)

theorem upsert_row_mem_prop {α : Type} (keyOf : α → String) (upd : α → α) (new : α)
    (Q : α → Prop) (tbl : List α) (hmem : ∀ r ∈ tbl, Q r)
    (hupd : ∀ r ∈ tbl, Q (upd r)) (hnew : Q new) :
    ∀ b ∈ (upsert_row keyOf upd new tbl).1, Q b := by
  induction tbl with
  | nil =>
    intro b hb
    simp only [upsert_row, List.mem_singleton] at hb
    exact hb ▸ hnew
  | cons x xs ih =>
    intro b hb
    simp only [upsert_row] at hb
    split at hb
    · rcases List.mem_cons.mp hb with h | h
      · exact h ▸ hupd x (List.mem_cons_self x xs)
      · exact hmem b (List.mem_cons_of_mem x h)
    · rcases List.mem_cons.mp hb with h | h
      · exact h ▸ hmem x (List.mem_cons_self x xs)
      · exact ih (fun r hr => hmem r (List.mem_cons_of_mem x hr))
          (fun r hr => hupd r (List.mem_cons_of_mem x hr)) b h

theorem upsert_row_key_mem {α : Type} (keyOf : α → String) (upd : α → α) (new : α)
    (tbl : List α) (hupd : ∀ r, keyOf (upd r) = keyOf r) :
    ∀ b ∈ (upsert_row keyOf upd new tbl).1,
      keyOf b = keyOf new ∨ ∃ a ∈ tbl, keyOf b = keyOf a := by
  induction tbl with
  | nil =>
    intro b hb
    simp only [upsert_row, List.mem_singleton] at hb
    exact Or.inl (hb ▸ rfl)
  | cons x xs ih =>
    intro b hb
    simp only [upsert_row] at hb
    split at hb
    · rcases List.mem_cons.mp hb with h | h
      · exact Or.inr ⟨x, List.mem_cons_self x xs, h ▸ hupd x⟩
      · exact Or.inr ⟨b, List.mem_cons_of_mem x h, rfl⟩
    · rcases List.mem_cons.mp hb with h | h
      · exact Or.inr ⟨x, List.mem_cons_self x xs, h ▸ rfl⟩
      · rcases ih b h with h2 | ⟨a, ha, h2⟩
        · exact Or.inl h2
        · exact Or.inr ⟨a, List.mem_cons_of_mem x ha, h2⟩

theorem upsert_row_uniq {α : Type} (keyOf : α → String) (upd : α → α) (new : α)
    (tbl : List α) (hupd : ∀ r, keyOf (upd r) = keyOf r)
    (huniq : KeysUnique keyOf tbl) : KeysUnique keyOf (upsert_row keyOf upd new tbl).1 := by
  induction tbl with
  | nil => simp [upsert_row, KeysUnique]
  | cons x xs ih =>
    rcases List.pairwise_cons.mp huniq with ⟨hx, hxs⟩
    simp only [upsert_row]
    split
    · rename_i hcond
      refine List.pairwise_cons.mpr ⟨?_, hxs⟩
      intro b hb
      rw [hupd x]
      exact hx b hb
    · rename_i hcond
      refine List.pairwise_cons.mpr ⟨?_, ih hxs⟩
      intro b hb
      rcases upsert_row_key_mem keyOf upd new xs hupd b hb with h | ⟨a, ha, h⟩
      · rw [h]
        intro hcontra
        exact hcond (by rw [hcontra]; exact beq_self_eq_true (keyOf new))
      · rw [h]
        exact hx a ha

theorem upsert_row_filter {α : Type} (keyOf : α → String) (upd : α → α) (new : α)
    (tbl : List α) (hupd : ∀ r, keyOf (upd r) = keyOf r)
    (huniq : KeysUnique keyOf tbl) :
    (upsert_row keyOf upd new tbl).1.filter (fun r => keyOf r == keyOf new)
      = [(upsert_row keyOf upd new tbl).2] := by
  induction tbl with
  | nil => simp [upsert_row]
  | cons x xs ih =>
    rcases List.pairwise_cons.mp huniq with ⟨hx, hxs⟩
    simp only [upsert_row]
    split
    · rename_i hcond
      have hxk : keyOf x = keyOf new := by simpa using hcond
      have hnil : xs.filter (fun r => keyOf r == keyOf new) = [] := by
        refine List.filter_eq_nil_iff.mpr ?_
        intro b hb
        have := hx b hb
        rw [hxk] at this
        simpa using this.symm
      simp [List.filter_cons, hupd x, hxk, hnil]
    · rename_i hcond
      have hxk : keyOf x ≠ keyOf new := by simpa using hcond
      simp [List.filter_cons, hxk, ih hxs]

theorem upsert_row_key_row {α : Type} (keyOf : α → String) (upd : α → α) (new : α)
    (tbl : List α) (hupd : ∀ r, keyOf (upd r) = keyOf r)
    (huniq : KeysUnique keyOf tbl) :
    ∀ r ∈ (upsert_row keyOf upd new tbl).1, keyOf r = keyOf new →
      r = (upsert_row keyOf upd new tbl).2 := by
  intro r hr hk
  have hfil : r ∈ (upsert_row keyOf upd new tbl).1.filter (fun r => keyOf r == keyOf new) :=
    List.mem_filter.mpr ⟨hr, by simpa using hk⟩
  rw [upsert_row_filter keyOf upd new tbl hupd huniq] at hfil
  simpa using hfil

theorem map_transaction_loop_inject (evId : Nat) :
    ∀ (files : List NcFileRow) (pending : Db) (k : Nat), k ≤ files.length →
      ∃ e, map_transaction_loop evId pending files (some k) = Except.error e := by
  intro files
  induction files with
  | nil =>
    intro pending k hk
    have hk0 : k = 0 := Nat.le_zero.mp hk
    subst hk0
    exact ⟨PyError.injected, rfl⟩
  | cons f rest ih =>
    intro pending k hk
    cases k with
    | zero => exact ⟨PyError.injected, rfl⟩
    | succ k =>
      cases href : f.ref_file_id with
      | none =>
        exact ⟨PyError.attributeError, by simp [map_transaction_loop, href]⟩
      | some rid =>
        obtain ⟨e, he⟩ := ih (set_ref_event (set_nc_event pending f.id evId) rid evId) k
          (Nat.succ_le_succ_iff.mp hk)
        exact ⟨e, by simp [map_transaction_loop, href, Option.map, he]⟩

theorem map_transaction_loop_noref (evId : Nat) :
    ∀ (files : List NcFileRow) (pending : Db), (∃ f ∈ files, f.ref_file_id = none) →
      map_transaction_loop evId pending files none = Except.error PyError.attributeError := by
  intro files
  induction files with
  | nil =>
    intro pending h
    obtain ⟨f, hf, _⟩ := h
    cases hf
  | cons g rest ih =>
    intro pending h
    cases href : g.ref_file_id with
    | none => simp [map_transaction_loop, href]
    | some rid =>
      obtain ⟨f, hf, hfr⟩ := h
      rcases List.mem_cons.mp hf with heq | hmem
      · rw [heq] at hfr
        rw [hfr] at href
        cases href
      · simp [map_transaction_loop, href, Option.map]
        exact ih _ ⟨f, hmem, hfr⟩

theorem derive_coords_error (paths : List String) (fn : String) (e : PyError)
    (hmem : fn ∈ paths) (herr : fn_to_datetime fn = Except.error e) :
    ∃ e2, derive_coords paths = Except.error e2 := by
  induction paths with
  | nil => cases hmem
  | cons p rest ih =>
    rcases List.mem_cons.mp hmem with heq | hmem2
    · subst heq
      exact ⟨e, by simp [derive_coords, herr]⟩
    · cases hp : fn_to_datetime p with
      | error e3 => exact ⟨e3, by simp [derive_coords, hp]⟩
      | ok dt =>
        obtain ⟨e2, h2⟩ := ih hmem2
        exact ⟨e2, by simp [derive_coords, hp, h2]⟩

theorem nc_upsert_uniq (db : Db) (dto : NcFileDTO)
    (h : KeysUnique (fun r => r.s3_path) db.nc_files) :
    KeysUnique (fun r => r.s3_path) (_upsert_nc_file_in_session db dto).1.nc_files :=
  upsert_row_uniq (fun r : NcFileRow => r.s3_path) (nc_row_update dto)
    (nc_row_insert db.next_id dto) db.nc_files (fun r => rfl) h

theorem ind_upsert_nc_files (db : Db) (dto : IndividualRefFileDTO) :
    (_upsert_individual_ref_file_in_session db dto).1.nc_files = db.nc_files := rfl

theorem nc_upsert_ids (db : Db) (dto : NcFileDTO) (h : IdsPositive db) :
    IdsPositive (_upsert_nc_file_in_session db dto).1
      ∧ 0 < (_upsert_nc_file_in_session db dto).2.id := by
  obtain ⟨h1, h2, h3⟩ := h
  refine ⟨⟨?_, ?_, ?_⟩, ?_⟩
  · exact Nat.lt_of_lt_of_le h1 (Nat.le_succ _)
  · exact upsert_row_mem_prop (fun r : NcFileRow => r.s3_path) (nc_row_update dto)
      (nc_row_insert db.next_id dto) (fun r => 0 < r.id) db.nc_files h2
      (fun r hr => h2 r hr) h1
  · exact h3
  · exact upsert_row_snd_prop (fun r : NcFileRow => r.s3_path) (nc_row_update dto)
      (nc_row_insert db.next_id dto) (fun r => 0 < r.id) db.nc_files
      (fun r hr => h2 r hr) h1

theorem ind_upsert_ids (db : Db) (dto : IndividualRefFileDTO) (h : IdsPositive db) :
    IdsPositive (_upsert_individual_ref_file_in_session db dto).1
      ∧ 0 < (_upsert_individual_ref_file_in_session db dto).2.id := by
  obtain ⟨h1, h2, h3⟩ := h
  refine ⟨⟨?_, ?_, ?_⟩, ?_⟩
  · exact Nat.lt_of_lt_of_le h1 (Nat.le_succ _)
  · exact h2
  · exact upsert_row_mem_prop (fun r : IndRefRow => r.s3_path) (ind_row_update dto)
      (ind_row_insert db.next_id dto) (fun r => 0 < r.id) db.individual_reference_files h3
      (fun r hr => h3 r hr) h1
  · exact upsert_row_snd_prop (fun r : IndRefRow => r.s3_path) (ind_row_update dto)
      (ind_row_insert db.next_id dto) (fun r => 0 < r.id) db.individual_reference_files
      (fun r hr => h3 r hr) h1

/-- C1 (counterexample): for the Flood event `c1_event`, the reflectivity
file `c1_file` lies in the padded window and its product is among the
products the static table maps from Flood, yet map_events selects
nothing: the code subscripts the product list with [0] and queries only
the first product (rainfall), refuting the claim that the selection is
exactly the in-window files over all mapped product(s). -/
theorem C1_counterexample_secondary_product_excluded :
    claimed_find_overlapping c1_db c1_event = Except.ok [c1_file] ∧
    map_events_selection c1_db c1_event = Except.ok [] ∧
    map_events_selection c1_db c1_event ≠ claimed_find_overlapping c1_db c1_event := by
  refine ⟨rfl, rfl, fun h => ?_⟩
  rw [show map_events_selection c1_db c1_event = Except.ok [] from rfl] at h
  rw [show claimed_find_overlapping c1_db c1_event = Except.ok [c1_file] from rfl] at h
  injection h with h2
  exact List.cons_ne_nil c1_file [] h2.symm

/-- C1 (amended): map_events selects exactly the stored raw files whose
timestamp lies in the inclusive padded window [start - 15min, end +
15min] and whose product equals the FIRST product mapped from the event
category (for Flood: rainfall only, not reflectivity or singleradar). -/
theorem C1_map_events_selection_first_product (db : Db) (ev : EventRow)
    (p : String) (ps : List String)
    (h : event_to_product_map ev.noaa_product = some (p :: ps)) :
    ∃ fs, map_events_selection db ev = Except.ok fs ∧
      ∀ f, f ∈ fs ↔ f ∈ db.nc_files ∧ f.product = p ∧
        ev.date_time_start - fifteen_minutes ≤ f.date_time ∧
        f.date_time ≤ ev.date_time_end + fifteen_minutes := by
  refine ⟨get_matching_nc_files db p (ev.date_time_start - fifteen_minutes)
    (ev.date_time_end + fifteen_minutes), by simp [map_events_selection, h], ?_⟩
  intro f
  simp [get_matching_nc_files, List.mem_filter, and_assoc]

/-- C1 (witness): the amended selection theorem instantiated on the
concrete Flood store `c1_db`. -/
theorem C1_map_events_selection_first_product_witness :
    ∃ fs, map_events_selection c1_db c1_event = Except.ok fs ∧
      ∀ f, f ∈ fs ↔ f ∈ c1_db.nc_files ∧ f.product = rainfallS ∧
        c1_event.date_time_start - fifteen_minutes ≤ f.date_time ∧
        f.date_time ≤ c1_event.date_time_end + fifteen_minutes :=
  C1_map_events_selection_first_product c1_db c1_event rainfallS
    [reflectivityS, singleradarS] rfl

/-- C2: the mapping of one event is all-or-nothing.  If an exception is
raised after any number k of the matching files have been assigned the
event id inside the transaction (including at commit), the committed
state is exactly the input store — the event status is still UNMAPPED and
no file or individual index carries a persisted event_id — and the error
is re-raised to the caller. -/
theorem C2_map_events_transaction_atomic (db : Db) (ev : EventRow)
    (files : List NcFileRow) (cur : EventRow) (k : Nat)
    (hsel : map_events_selection db ev = Except.ok files)
    (hne : files ≠ [])
    (hcur : get_current_event db ev.id = Except.ok cur)
    (hk : k ≤ files.length) :
    ∃ e, map_one_event db ev (some k) = (db, some e) := by
  obtain ⟨e, he⟩ := map_transaction_loop_inject ev.id files db k hk
  have hempty : files.isEmpty = false := by
    cases files with
    | nil => exact absurd rfl hne
    | cons a l => rfl
  exact ⟨e, by simp [map_one_event, hsel, hempty, hcur, he]⟩

/-- C2 (witness): a failure injected after two of the five matching files
of the concrete store `c2_db` leaves the store untouched and surfaces the
error. -/
theorem C2_map_events_transaction_atomic_witness :
    ∃ e, map_one_event c2_db c2_event (some 2) = (c2_db, some e) :=
  C2_map_events_transaction_atomic c2_db c2_event c2_files c2_event 2 rfl
    (by simp [c2_files]) rfl (by simp [c2_files])

/-- C9: when any matched raw file has no linked individual index
(ref_file is None), the mapping transaction raises an AttributeError
while dereferencing it, the transaction rolls back entirely — the
returned committed state is the unchanged input store, so the event stays
UNMAPPED with no files linked — and the error propagates. -/
theorem C9_map_events_missing_index_rolls_back (db : Db) (ev : EventRow)
    (files : List NcFileRow) (cur : EventRow) (f : NcFileRow)
    (hsel : map_events_selection db ev = Except.ok files)
    (hf : f ∈ files) (hnone : f.ref_file_id = none)
    (hcur : get_current_event db ev.id = Except.ok cur) :
    map_one_event db ev none = (db, some PyError.attributeError) := by
  have hne : files ≠ [] := List.ne_nil_of_mem hf
  have hempty : files.isEmpty = false := by
    cases files with
    | nil => exact absurd rfl hne
    | cons a l => rfl
  have hloop := map_transaction_loop_noref ev.id files db ⟨f, hf, hnone⟩
  simp [map_one_event, hsel, hempty, hcur, hloop]

/-- C9 (witness): in `c9_db` the second matching file has no individual
index; mapping the event fails with AttributeError and leaves the store
unchanged. -/
theorem C9_map_events_missing_index_rolls_back_witness :
    map_one_event c9_db c9_event none = (c9_db, some PyError.attributeError) :=
  C9_map_events_missing_index_rolls_back c9_db c9_event [c9_file_a, c9_file_b]
    c9_event c9_file_b rfl (by simp) rfl rfl

/-- C5: the three documented filename patterns parse as the claim states
(hail COMPOSITE_, single-radar name.tx-, default rainfall), and a fully
unrecognized name yields the None marker; but the no-raise guarantee is
broken: a name containing tx- with no dot makes split(".")[1] raise
IndexError, which the handler (except ValueError) does not catch, so the
function raises instead of returning None. -/
theorem C5_parse_infer_examples_and_indexerror :
    parse_file_datetime_infer_simple "COMPOSITE_20230615-143000"
      = Except.ok (some ⟨2023, 6, 15, 14, 30, 0⟩) ∧
    parse_file_datetime_infer_simple "radar.tx-20230615-143000"
      = Except.ok (some ⟨2023, 6, 15, 14, 30, 0⟩) ∧
    parse_file_datetime_infer_simple "20230615_143000"
      = Except.ok (some ⟨2023, 6, 15, 14, 30, 0⟩) ∧
    parse_file_datetime_infer_simple "hello-world" = Except.ok none ∧
    parse_file_datetime_infer_simple "tx-broken" = Except.error PyError.indexError :=
  ⟨rfl, rfl, rfl, rfl, rfl⟩

/-- C6 (counterexample): the per-file datetime-coordinate derivation
raises (it does not exclude the file): fn_to_datetime on an unparseable
name is a ValueError, and one unparseable file aborts the whole
coordinate derivation of the merge batch. -/
theorem C6_counterexample_parse_failure_aborts :
    fn_to_datetime "not-a-date" = Except.error PyError.valueError ∧
    derive_coords ["20230615_143000", "not-a-date"] = Except.error PyError.valueError :=
  ⟨rfl, rfl⟩

/-- C6 (amended): for every filename on which the parser returns the
unparseable marker, fn_to_datetime raises ValueError, and a merge batch
containing such a file aborts with an error instead of excluding the
file. -/
theorem C6_fn_to_datetime_raises_and_aborts_batch (fn : String) (paths : List String)
    (hmem : fn ∈ paths)
    (hparse : parse_file_datetime_infer_simple fn = Except.ok none) :
    fn_to_datetime fn = Except.error PyError.valueError ∧
    ∃ e, derive_coords paths = Except.error e := by
  have h1 : fn_to_datetime fn = Except.error PyError.valueError := by
    unfold fn_to_datetime
    split
    · rfl
    · rw [hparse]
  exact ⟨h1, derive_coords_error paths fn PyError.valueError hmem h1⟩

/-- C6 (witness): the amended theorem at a concrete unparseable file. -/
theorem C6_fn_to_datetime_raises_and_aborts_batch_witness :
    fn_to_datetime "bad-file" = Except.error PyError.valueError ∧
    ∃ e, derive_coords ["bad-file"] = Except.error e :=
  C6_fn_to_datetime_raises_and_aborts_batch "bad-file" ["bad-file"]
    (List.mem_singleton.mpr rfl) rfl

/-- C8 (counterexample): on a 2-CPU host the semaphore bound is 2, not
max(cpu_count, 4) = 4 — the code is `os.cpu_count() or 4`, which takes 4
only when cpu_count is falsy. -/
theorem C8_counterexample_two_cpus :
    semaphore_size (some 2) = 2 ∧ semaphore_size (some 2) ≠ max 2 4 :=
  ⟨rfl, by decide⟩

/-- C8 (amended): the common concurrency bound of index building and
index combining is the host CPU count whenever os.cpu_count() reports a
nonzero count, and 4 only when the count is unavailable (None) or 0. -/
theorem C8_semaphore_size_cpu_or_default (n : Nat) (h : n ≠ 0) :
    semaphore_size (some n) = n ∧ semaphore_size none = 4 ∧ semaphore_size (some 0) = 4 := by
  refine ⟨?_, rfl, rfl⟩
  simp [semaphore_size, h]

/-- C8 (witness): the amended bound at a concrete 8-CPU host. -/
theorem C8_semaphore_size_cpu_or_default_witness :
    semaphore_size (some 8) = 8 ∧ semaphore_size none = 4 ∧ semaphore_size (some 0) = 4 :=
  C8_semaphore_size_cpu_or_default 8 (by decide)

/-- C4 (counterexample): for the MAPPED event `c4_event` with zero linked
individual indexes, process_event_ref_files does not skip: the combine is
still attempted, with an empty input list, refuting the claimed
no-op-with-warning behavior. -/
theorem C4_counterexample_empty_merge_attempted :
    get_individual_ref_files c4_db 7 = [] ∧
    (bounded_generate_combined_ref_file c4_db c4_event).attempted_merge = true ∧
    (bounded_generate_combined_ref_file c4_db c4_event).input_paths = [] :=
  ⟨rfl, rfl, rfl⟩

/-- C4 (amended): the event query feeding the combiner (modelled from the
spec, the function is absent from the sources) only returns MAPPED
events, so combine_for_event is not invoked for UNMAPPED events; but when
an event has zero linked individual indexes the combine is still
attempted with an empty input list — there is no skip branch. -/
theorem C4_combine_only_mapped_but_no_empty_skip :
    (∀ (db : Db) (since : Int) (e : EventRow),
      e ∈ get_events_for_event_ref_files db since → e.status = EventStatus.mapped) ∧
    (∀ (db : Db) (ev : EventRow), get_individual_ref_files db ev.id = [] →
      (bounded_generate_combined_ref_file db ev).attempted_merge = true ∧
      (bounded_generate_combined_ref_file db ev).input_paths = []) := by
  constructor
  · intro db since e he
    have h2 := (List.mem_filter.mp he).2
    simp only [Bool.and_eq_true, decide_eq_true_eq] at h2
    exact h2.1.1
  · intro db ev h
    exact ⟨rfl, by simp [bounded_generate_combined_ref_file, h]⟩

/-- C4 (witness): the amended theorem at the concrete store `c4_db`. -/
theorem C4_combine_only_mapped_but_no_empty_skip_witness :
    c4_event.status = EventStatus.mapped ∧
    ((bounded_generate_combined_ref_file c4_db c4_event).attempted_merge = true ∧
     (bounded_generate_combined_ref_file c4_db c4_event).input_paths = []) :=
  ⟨C4_combine_only_mapped_but_no_empty_skip.1 c4_db 0 c4_event
     (List.mem_singleton.mpr rfl),
   C4_combine_only_mapped_but_no_empty_skip.2 c4_db c4_event rfl⟩

theorem nc_upsert_filter (db : Db) (dto : NcFileDTO)
    (huniq : KeysUnique (fun r => r.s3_path) db.nc_files) :
    (_upsert_nc_file_in_session db dto).1.nc_files.filter
        (fun r => r.s3_path == dto.s3_path)
      = [(_upsert_nc_file_in_session db dto).2] :=
  upsert_row_filter (fun r : NcFileRow => r.s3_path) (nc_row_update dto)
    (nc_row_insert db.next_id dto) db.nc_files (fun r => rfl) huniq

theorem nc_upsert_key_row (db : Db) (dto : NcFileDTO)
    (huniq : KeysUnique (fun r => r.s3_path) db.nc_files) :
    ∀ r ∈ (_upsert_nc_file_in_session db dto).1.nc_files, r.s3_path = dto.s3_path →
      r = (_upsert_nc_file_in_session db dto).2 :=
  upsert_row_key_row (fun r : NcFileRow => r.s3_path) (nc_row_update dto)
    (nc_row_insert db.next_id dto) db.nc_files (fun r => rfl) huniq

theorem nc_upsert_snd_payload (db : Db) (dto : NcFileDTO) :
    (_upsert_nc_file_in_session db dto).2.date_time = dto.date_time ∧
    (_upsert_nc_file_in_session db dto).2.product = dto.product ∧
    (_upsert_nc_file_in_session db dto).2.event_id = dto.event_id ∧
    (_upsert_nc_file_in_session db dto).2.ref_file_id = dto.reference_file_id :=
  upsert_row_snd_prop (fun r : NcFileRow => r.s3_path) (nc_row_update dto)
    (nc_row_insert db.next_id dto)
    (fun r => r.date_time = dto.date_time ∧ r.product = dto.product ∧
      r.event_id = dto.event_id ∧ r.ref_file_id = dto.reference_file_id)
    db.nc_files (fun r hr => ⟨rfl, rfl, rfl, rfl⟩) ⟨rfl, rfl, rfl, rfl⟩

theorem ind_upsert_uniq (db : Db) (dto : IndividualRefFileDTO)
    (h : KeysUnique (fun r => r.s3_path) db.individual_reference_files) :
    KeysUnique (fun r => r.s3_path)
      (_upsert_individual_ref_file_in_session db dto).1.individual_reference_files :=
  upsert_row_uniq (fun r : IndRefRow => r.s3_path) (ind_row_update dto)
    (ind_row_insert db.next_id dto) db.individual_reference_files (fun r => rfl) h

theorem ind_upsert_filter (db : Db) (dto : IndividualRefFileDTO)
    (huniq : KeysUnique (fun r => r.s3_path) db.individual_reference_files) :
    (_upsert_individual_ref_file_in_session db dto).1.individual_reference_files.filter
        (fun r => r.s3_path == dto.s3_path)
      = [(_upsert_individual_ref_file_in_session db dto).2] :=
  upsert_row_filter (fun r : IndRefRow => r.s3_path) (ind_row_update dto)
    (ind_row_insert db.next_id dto) db.individual_reference_files (fun r => rfl) huniq

theorem ind_upsert_key_row (db : Db) (dto : IndividualRefFileDTO)
    (huniq : KeysUnique (fun r => r.s3_path) db.individual_reference_files) :
    ∀ r ∈ (_upsert_individual_ref_file_in_session db dto).1.individual_reference_files,
      r.s3_path = dto.s3_path →
        r = (_upsert_individual_ref_file_in_session db dto).2 :=
  upsert_row_key_row (fun r : IndRefRow => r.s3_path) (ind_row_update dto)
    (ind_row_insert db.next_id dto) db.individual_reference_files (fun r => rfl) huniq

theorem ind_upsert_snd_payload (db : Db) (dto : IndividualRefFileDTO) :
    (_upsert_individual_ref_file_in_session db dto).2.date_time = dto.date_time ∧
    (_upsert_individual_ref_file_in_session db dto).2.product = dto.product ∧
    (_upsert_individual_ref_file_in_session db dto).2.event_id = dto.event_id ∧
    (_upsert_individual_ref_file_in_session db dto).2.nc_file_id = dto.nc_file_id :=
  upsert_row_snd_prop (fun r : IndRefRow => r.s3_path) (ind_row_update dto)
    (ind_row_insert db.next_id dto)
    (fun r => r.date_time = dto.date_time ∧ r.product = dto.product ∧
      r.event_id = dto.event_id ∧ r.nc_file_id = dto.nc_file_id)
    db.individual_reference_files (fun r hr => ⟨rfl, rfl, rfl, rfl⟩) ⟨rfl, rfl, rfl, rfl⟩

theorem event_ref_upsert_filter (db : Db) (dto : EventRefFileDTO)
    (huniq : KeysUnique (fun r => r.s3_path) db.event_reference_files) :
    (upsert_event_ref_file db dto).1.event_reference_files.filter
        (fun r => r.s3_path == dto.s3_path)
      = [(upsert_event_ref_file db dto).2] :=
  upsert_row_filter (fun r : EventRefRow => r.s3_path) (event_ref_row_update dto)
    (event_ref_row_insert db.next_id dto) db.event_reference_files (fun r => rfl) huniq

theorem event_ref_upsert_uniq (db : Db) (dto : EventRefFileDTO)
    (h : KeysUnique (fun r => r.s3_path) db.event_reference_files) :
    KeysUnique (fun r => r.s3_path) (upsert_event_ref_file db dto).1.event_reference_files :=
  upsert_row_uniq (fun r : EventRefRow => r.s3_path) (event_ref_row_update dto)
    (event_ref_row_insert db.next_id dto) db.event_reference_files (fun r => rfl) h

theorem event_ref_upsert_key_row (db : Db) (dto : EventRefFileDTO)
    (huniq : KeysUnique (fun r => r.s3_path) db.event_reference_files) :
    ∀ r ∈ (upsert_event_ref_file db dto).1.event_reference_files, r.s3_path = dto.s3_path →
      r = (upsert_event_ref_file db dto).2 :=
  upsert_row_key_row (fun r : EventRefRow => r.s3_path) (event_ref_row_update dto)
    (event_ref_row_insert db.next_id dto) db.event_reference_files (fun r => rfl) huniq

theorem event_ref_upsert_snd_payload (db : Db) (dto : EventRefFileDTO) :
    (upsert_event_ref_file db dto).2.product = dto.product ∧
    (upsert_event_ref_file db dto).2.event_id = dto.event_id :=
  upsert_row_snd_prop (fun r : EventRefRow => r.s3_path) (event_ref_row_update dto)
    (event_ref_row_insert db.next_id dto)
    (fun r => r.product = dto.product ∧ r.event_id = dto.event_id)
    db.event_reference_files (fun r hr => ⟨rfl, rfl⟩) ⟨rfl, rfl⟩

/-- C3: for each of the three registry tables (nc_files,
individual_reference_files, event_reference_files — the last upsert is
modelled from the spec, its function being absent from the sources),
upserting twice with the same unique s3_path and different payloads
leaves exactly one row for that key, and that row carries the second
payload in every payload column. -/
theorem C3_upsert_idempotent_unique_key :
    (∀ (db : Db) (d1 d2 : NcFileDTO), d1.s3_path = d2.s3_path →
      KeysUnique (fun r => r.s3_path) db.nc_files →
      (((_upsert_nc_file_in_session (_upsert_nc_file_in_session db d1).1 d2).1.nc_files.filter
          (fun r => r.s3_path == d2.s3_path)).length = 1 ∧
        ∀ r ∈ (_upsert_nc_file_in_session (_upsert_nc_file_in_session db d1).1 d2).1.nc_files,
          r.s3_path = d2.s3_path →
            r.date_time = d2.date_time ∧ r.product = d2.product ∧
              r.event_id = d2.event_id ∧ r.ref_file_id = d2.reference_file_id)) ∧
    (∀ (db : Db) (d1 d2 : IndividualRefFileDTO), d1.s3_path = d2.s3_path →
      KeysUnique (fun r => r.s3_path) db.individual_reference_files →
      (((_upsert_individual_ref_file_in_session
            (_upsert_individual_ref_file_in_session db d1).1 d2).1.individual_reference_files.filter
          (fun r => r.s3_path == d2.s3_path)).length = 1 ∧
        ∀ r ∈ (_upsert_individual_ref_file_in_session
            (_upsert_individual_ref_file_in_session db d1).1 d2).1.individual_reference_files,
          r.s3_path = d2.s3_path →
            r.date_time = d2.date_time ∧ r.product = d2.product ∧
              r.event_id = d2.event_id ∧ r.nc_file_id = d2.nc_file_id)) ∧
    (∀ (db : Db) (d1 d2 : EventRefFileDTO), d1.s3_path = d2.s3_path →
      KeysUnique (fun r => r.s3_path) db.event_reference_files →
      (((upsert_event_ref_file (upsert_event_ref_file db d1).1 d2).1.event_reference_files.filter
          (fun r => r.s3_path == d2.s3_path)).length = 1 ∧
        ∀ r ∈ (upsert_event_ref_file (upsert_event_ref_file db d1).1 d2).1.event_reference_files,
          r.s3_path = d2.s3_path →
            r.product = d2.product ∧ r.event_id = d2.event_id)) := by
  refine ⟨?_, ?_, ?_⟩
  · intro db d1 d2 hkey huniq
    have huniq1 := nc_upsert_uniq db d1 huniq
    refine ⟨?_, ?_⟩
    · rw [nc_upsert_filter (_upsert_nc_file_in_session db d1).1 d2 huniq1]
      rfl
    · intro r hr hkr
      rw [nc_upsert_key_row (_upsert_nc_file_in_session db d1).1 d2 huniq1 r hr hkr]
      exact nc_upsert_snd_payload (_upsert_nc_file_in_session db d1).1 d2
  · intro db d1 d2 hkey huniq
    have huniq1 := ind_upsert_uniq db d1 huniq
    refine ⟨?_, ?_⟩
    · rw [ind_upsert_filter (_upsert_individual_ref_file_in_session db d1).1 d2 huniq1]
      rfl
    · intro r hr hkr
      rw [ind_upsert_key_row (_upsert_individual_ref_file_in_session db d1).1 d2 huniq1 r hr hkr]
      exact ind_upsert_snd_payload (_upsert_individual_ref_file_in_session db d1).1 d2
  · intro db d1 d2 hkey huniq
    have huniq1 := event_ref_upsert_uniq db d1 huniq
    refine ⟨?_, ?_⟩
    · rw [event_ref_upsert_filter (upsert_event_ref_file db d1).1 d2 huniq1]
      rfl
    · intro r hr hkr
      rw [event_ref_upsert_key_row (upsert_event_ref_file db d1).1 d2 huniq1 r hr hkr]
      exact event_ref_upsert_snd_payload (upsert_event_ref_file db d1).1 d2

/-- C3 (witness): double upserts on the same key over the empty store,
one per table, each leaving exactly one row for the key. -/
theorem C3_upsert_idempotent_unique_key_witness :
    (((_upsert_nc_file_in_session
        (_upsert_nc_file_in_session c3_db ⟨"rainfall/k.nc", 1, rainfallS, some 1, none⟩).1
        ⟨"rainfall/k.nc", 2, hailS, none, some 9⟩).1.nc_files.filter
      (fun r => r.s3_path == "rainfall/k.nc")).length = 1) ∧
    (((_upsert_individual_ref_file_in_session
        (_upsert_individual_ref_file_in_session c3_db ⟨"ref_files/k.json", 1, rainfallS, some 1, none⟩).1
        ⟨"ref_files/k.json", 2, hailS, none, some 9⟩).1.individual_reference_files.filter
      (fun r => r.s3_path == "ref_files/k.json")).length = 1) ∧
    (((upsert_event_ref_file
        (upsert_event_ref_file c3_db ⟨"event_ref_files/noaa/1.json", rainfallS, 1⟩).1
        ⟨"event_ref_files/noaa/1.json", hailS, 2⟩).1.event_reference_files.filter
      (fun r => r.s3_path == "event_ref_files/noaa/1.json")).length = 1) :=
  ⟨(C3_upsert_idempotent_unique_key.1 c3_db ⟨"rainfall/k.nc", 1, rainfallS, some 1, none⟩
      ⟨"rainfall/k.nc", 2, hailS, none, some 9⟩ rfl List.Pairwise.nil).1,
   (C3_upsert_idempotent_unique_key.2.1 c3_db ⟨"ref_files/k.json", 1, rainfallS, some 1, none⟩
      ⟨"ref_files/k.json", 2, hailS, none, some 9⟩ rfl List.Pairwise.nil).1,
   (C3_upsert_idempotent_unique_key.2.2 c3_db ⟨"event_ref_files/noaa/1.json", rainfallS, 1⟩
      ⟨"event_ref_files/noaa/1.json", hailS, 2⟩ rfl List.Pairwise.nil).1⟩

/-- C7: in the batch registry-linking loop, a failure while linking one
(reference file, raw file) pair is caught, logged with the raw-file path
and the error, and aborts only that items linking sequence: the batch
resumes from the session state the failed item reached and processes
every remaining item. -/
theorem C7_batch_continues_after_item_failure (db : Db) (log : List (String × PyError))
    (ref_path nc_path : String) (failAt : Option Nat)
    (rest : List (String × String × Option Nat)) (e : PyError)
    (herr : (process_one_ref_item db ref_path nc_path failAt).2 = some e) :
    batch_upsert_refs db log ((ref_path, nc_path, failAt) :: rest) =
      batch_upsert_refs (process_one_ref_item db ref_path nc_path failAt).1
        (log ++ [(nc_path, e)]) rest := by
  simp [batch_upsert_refs, herr]

/-- C7 (witness): an unparseable nc path fails pydantic validation of its
DTO; the failure is logged for that path and the good item after it is
still processed. -/
theorem C7_batch_continues_after_item_failure_witness :
    batch_upsert_refs c3_db []
      [("ref_files/rainfall/x/bad.json", "rainfall/x/bad.nc", none),
       ("ref_files/rainfall/y/20240101_000000.json", "rainfall/y/20240101_000000.nc", none)] =
    batch_upsert_refs c3_db [("rainfall/x/bad.nc", PyError.validationError)]
      [("ref_files/rainfall/y/20240101_000000.json", "rainfall/y/20240101_000000.nc", none)] :=
  C7_batch_continues_after_item_failure c3_db [] "ref_files/rainfall/x/bad.json"
    "rainfall/x/bad.nc" none
    [("ref_files/rainfall/y/20240101_000000.json", "rainfall/y/20240101_000000.nc", none)]
    PyError.validationError rfl

theorem nc_upsert_filter_key (db : Db) (dto : NcFileDTO) (k : String)
    (hk : dto.s3_path = k)
    (huniq : KeysUnique (fun r => r.s3_path) db.nc_files) :
    (_upsert_nc_file_in_session db dto).1.nc_files.filter (fun r => r.s3_path == k)
      = [(_upsert_nc_file_in_session db dto).2] := by
  subst hk
  exact nc_upsert_filter db dto huniq

theorem nc_upsert_key_row_key (db : Db) (dto : NcFileDTO) (k : String)
    (hk : dto.s3_path = k)
    (huniq : KeysUnique (fun r => r.s3_path) db.nc_files) :
    ∀ r ∈ (_upsert_nc_file_in_session db dto).1.nc_files, r.s3_path = k →
      r = (_upsert_nc_file_in_session db dto).2 := by
  subst hk
  exact nc_upsert_key_row db dto huniq

/-- C10: rerunning the individual-index batch upsert over a raw file that
was already linked to an event clears that link: the item loop builds its
NcFileDTO with event_id None and the upsert overwrites every payload
column, so after a successful reprocessing the stored nc_files row for
that s3_path is unique and has no event_id, whatever it held before. -/
theorem C10_reprocessing_clears_event_link (db res : Db) (ref_path nc_path : String)
    (dt : PDateTime)
    (hparse : parse_file_datetime (String.mk (baseNameL nc_path.data))
      (some (nc_product nc_path)) = Except.ok (some dt))
    (huniq : KeysUnique (fun r => r.s3_path) db.nc_files)
    (hids : IdsPositive db)
    (hres : res = (process_one_ref_item db ref_path nc_path none).1) :
    ((res.nc_files.filter (fun r => r.s3_path == nc_path)).length = 1) ∧
    (∀ r ∈ res.nc_files, r.s3_path = nc_path → r.event_id = none) := by
  subst hres
  have hpos1 := nc_upsert_ids db ⟨nc_path, dtCode dt, nc_product nc_path, none, none⟩ hids
  have hid1 : ((_upsert_nc_file_in_session db
      ⟨nc_path, dtCode dt, nc_product nc_path, none, none⟩).2.id == 0) = false :=
    beq_eq_false_iff_ne.mpr (Nat.pos_iff_ne_zero.mp hpos1.2)
  have hpos2 := ind_upsert_ids
    (_upsert_nc_file_in_session db ⟨nc_path, dtCode dt, nc_product nc_path, none, none⟩).1
    ⟨ref_path, dtCode dt, nc_product nc_path, none,
      some (_upsert_nc_file_in_session db
        ⟨nc_path, dtCode dt, nc_product nc_path, none, none⟩).2.id⟩ hpos1.1
  have hid2 : ((_upsert_individual_ref_file_in_session
      (_upsert_nc_file_in_session db ⟨nc_path, dtCode dt, nc_product nc_path, none, none⟩).1
      ⟨ref_path, dtCode dt, nc_product nc_path, none,
        some (_upsert_nc_file_in_session db
          ⟨nc_path, dtCode dt, nc_product nc_path, none, none⟩).2.id⟩).2.id == 0) = false :=
    beq_eq_false_iff_ne.mpr (Nat.pos_iff_ne_zero.mp hpos2.2)
  have e1 : ((none : Option Nat) == some 1) = false := rfl
  have e2 : ((none : Option Nat) == some 2) = false := rfl
  have e3 : ((none : Option Nat) == some 3) = false := rfl
  simp only [process_one_ref_item]
  rw [hparse]
  simp only [hid1, hid2, e1, e2, e3, Bool.false_eq_true, if_false]
  set p1 := _upsert_nc_file_in_session db
    ⟨nc_path, dtCode dt, nc_product nc_path, none, none⟩ with hp1
  set p2 := _upsert_individual_ref_file_in_session p1.1
    ⟨ref_path, dtCode dt, nc_product nc_path, none, some p1.2.id⟩ with hp2
  set p3 := _upsert_nc_file_in_session p2.1
    ⟨nc_path, dtCode dt, nc_product nc_path, none, some p2.2.id⟩ with hp3
  have huniq2 : KeysUnique (fun r => r.s3_path) p2.1.nc_files := by
    rw [hp2, ind_upsert_nc_files, hp1]
    exact nc_upsert_uniq db ⟨nc_path, dtCode dt, nc_product nc_path, none, none⟩ huniq
  refine ⟨?_, ?_⟩
  · rw [hp3, nc_upsert_filter_key _ _ nc_path rfl huniq2]
    rfl
  · intro r hr hkr
    rw [hp3] at hr
    rw [nc_upsert_key_row_key _ _ nc_path rfl huniq2 r hr hkr]
    exact (nc_upsert_snd_payload _ _).2.2.1

/-- C10 (witness): the concrete store `c10_db`, whose nc row and index row
both carry event_id 7, reprocessed over the same paths: the surviving nc
row for the key has no event link. -/
theorem C10_reprocessing_clears_event_link_witness :
    (((process_one_ref_item c10_db "ref_files/rainfall/20240101/20240101_000000.json"
        "rainfall/20240101/20240101_000000.nc" none).1.nc_files.filter
      (fun r => r.s3_path == "rainfall/20240101/20240101_000000.nc")).length = 1) ∧
    (∀ r ∈ (process_one_ref_item c10_db "ref_files/rainfall/20240101/20240101_000000.json"
        "rainfall/20240101/20240101_000000.nc" none).1.nc_files,
      r.s3_path = "rainfall/20240101/20240101_000000.nc" → r.event_id = none) :=
  C10_reprocessing_clears_event_link c10_db _
    "ref_files/rainfall/20240101/20240101_000000.json"
    "rainfall/20240101/20240101_000000.nc" ⟨2024, 1, 1, 0, 0, 0⟩ rfl
    (by simp [KeysUnique, c10_db]) ⟨by decide, by decide, by decide⟩ rfl
